import Mathlib

/-!
Verification of the laptop-ai analysis layer against its specification.

The presentational UI (InputScreen, LaptopCard, ResultsScreen) is embedded
from the JSX source in src/laptop-battle-ui.  The backend orchestration
layer (Normalizer, AnalysisCache, KnowledgeIngestor, AnalysisBuilder,
ComparisonEngine, Orchestrator) is not part of the source tree here, so its
operations are modelled from the specification text; each such definition
carries a doc comment starting with `Modelled from the spec:`.
-/

namespace LaptopAI

/-! ## UI embedding: InputScreen (src/laptop-battle-ui, InputScreen.handleBattle) -/

/-- Whitespace in the sense of JavaScript string trimming (the characters
that occur in the inputs of this system). -/
def wsChar (c : Char) : Bool :=
  c = ' ' || c = '\t' || c = '\n' || c = '\r'

/-- JavaScript `String.prototype.trim`, embedded structurally over the
character list of the string. -/
def jsTrim (s : String) : String :=
  ⟨((s.data.dropWhile wsChar).reverse.dropWhile wsChar).reverse⟩

/-- JavaScript `String.prototype.toLowerCase` on the ASCII inputs this UI
handles. -/
def jsToLower (s : String) : String :=
  ⟨s.data.map Char.toLower⟩

/-- Outcome of pressing the battle button in `InputScreen`: either the
submission is blocked with an on-screen error message, or the `onBattle`
callback is invoked with the two (trimmed) names. -/
inductive SubmitResult where
  | blocked (errorMessage : String)
  | submitted (name1 name2 : String)
  deriving DecidableEq, Repr

/-- `InputScreen.handleBattle` from the source: rejects when either input
trims to empty, rejects case-insensitively equal names, otherwise calls
`onBattle(laptop1.trim(), laptop2.trim())`. -/
def handleBattle (laptop1 laptop2 : String) : SubmitResult :=
  if jsTrim laptop1 = "" ∨ jsTrim laptop2 = "" then
    SubmitResult.blocked "Please enter both laptop names"
  else if jsToLower (jsTrim laptop1) = jsToLower (jsTrim laptop2) then
    SubmitResult.blocked "Please enter two different laptops"
  else
    SubmitResult.submitted (jsTrim laptop1) (jsTrim laptop2)

/-! ## UI embedding: LaptopCard rendering (src/laptop-battle-ui, ResultsScreen.jsx) -/

/-- JavaScript `Array.prototype.slice` restricted to non-negative indices,
as used by `LaptopCard` (`slice(0, 4)`, `slice(0, 3)`). -/
def jsSlice (l : List α) (start stop : Nat) : List α :=
  (l.take stop).drop start

/-- The `<li>` texts produced by `data.pros && data.pros.slice(0, 4).map(...)`
in `LaptopCard`; a `null`/`undefined` field is `none`. -/
def prosItems (pros : Option (List String)) : List String :=
  match pros with
  | some l => jsSlice l 0 4
  | none => []

/-- The JSX guard `(!data.pros || data.pros.length === 0)` that switches the
pros list to its fallback row. -/
def prosFallback (pros : Option (List String)) : Bool :=
  match pros with
  | none => true
  | some l => l.isEmpty

/-- Full rendered pros list of `LaptopCard`: the sliced items followed by the
fallback row when the guard fires. -/
def renderedPros (pros : Option (List String)) : List String :=
  prosItems pros ++ (if prosFallback pros then ["No pros identified"] else [])

/-- The `<li>` texts produced by `data.cons && data.cons.slice(0, 4).map(...)`. -/
def consItems (cons : Option (List String)) : List String :=
  match cons with
  | some l => jsSlice l 0 4
  | none => []

/-- The JSX guard `(!data.cons || data.cons.length === 0)`. -/
def consFallback (cons : Option (List String)) : Bool :=
  match cons with
  | none => true
  | some l => l.isEmpty

/-- Full rendered cons list of `LaptopCard`. -/
def renderedCons (cons : Option (List String)) : List String :=
  consItems cons ++ (if consFallback cons then ["No cons identified"] else [])

/-- The JSX guard `data.key_themes && data.key_themes.length > 0` around the
Key Themes section. -/
def themesSectionShown (themes : Option (List String)) : Bool :=
  match themes with
  | none => false
  | some l => decide (0 < l.length)

/-- The theme chips rendered by `data.key_themes.slice(0, 3).map(...)`,
empty when the section guard is false. -/
def renderedThemes (themes : Option (List String)) : List String :=
  match themes with
  | none => []
  | some l => if 0 < l.length then jsSlice l 0 3 else []

/-! ## Backend model

The orchestration layer itself (FastAPI backend, pipeline) is not in the
source tree; the definitions below are modelled from the specification. -/

/-- Modelled from the spec: the build-stage error taxonomy of section 7
(`InsufficientDataError`, `AnalysisParseError`, `InvalidScoreError`). -/
inductive BuildError where
  | insufficientData
  | analysisParse
  | invalidScore
  deriving DecidableEq, Repr

/-- Modelled from the spec: `InvalidNameError` raised by the Normalizer. -/
inductive NameError where
  | invalidName
  deriving DecidableEq, Repr

/-- Characters that survive normalization; everything else is a separator. -/
def isKeyChar (c : Char) : Bool :=
  c.isAlpha || c.isDigit

/-- Maximal runs of alphanumeric characters of a character list; the second
argument accumulates the current run in reverse. -/
def keyTokens : List Char → List Char → List (List Char)
  | [], cur => if cur = [] then [] else [cur.reverse]
  | c :: rest, cur =>
    if isKeyChar c then keyTokens rest (c :: cur)
    else if cur = [] then keyTokens rest []
    else cur.reverse :: keyTokens rest []

/-- Modelled from the spec: `normalize(rawName) -> key` (section 4.1) —
lower-cases, trims, collapses internal whitespace, replaces non-alphanumeric
separators with a single delimiter; fails with `InvalidNameError` when the
trimmed input is empty. -/
def normalize (rawName : String) : Except NameError String :=
  if jsTrim rawName = "" then Except.error NameError.invalidName
  else Except.ok (String.intercalate "-"
    ((keyTokens (jsToLower rawName).data []).map fun t => ⟨t⟩))

/-- Modelled from the spec: the `AnalysisRecord` data model of section 3. -/
structure AnalysisRecord where
  key : String
  displayName : String
  sentimentScore : Int
  pros : List String
  cons : List String
  keyThemes : List String
  explanation : String
  recommendation : String
  postsAnalyzed : Nat
  builtAt : Nat
  deriving DecidableEq, Repr

/-- A record with the given key and score and empty content, used as a
concrete sample input. -/
def sampleRecord (k : String) (score : Int) : AnalysisRecord :=
  { key := k, displayName := k, sentimentScore := score, pros := [],
    cons := [], keyThemes := [], explanation := "", recommendation := "",
    postsAnalyzed := 0, builtAt := 0 }

/-- Modelled from the spec: the winner marker of a `ComparisonResult` —
one of the two keys, or a tie marker. -/
inductive Winner where
  | key (k : String)
  | tie
  deriving DecidableEq, Repr

/-- Modelled from the spec: the `ComparisonResult` data model of section 3. -/
structure ComparisonResult where
  keyA : String
  keyB : String
  winnerKey : Winner
  scoreDifference : Nat
  deriving DecidableEq, Repr

/-- Modelled from the spec: `ComparisonEngine.combine` (section 4.5) — pure,
winner by strict score comparison, tie exactly on equality, difference is the
absolute score gap. -/
def combine (recordA recordB : AnalysisRecord) : ComparisonResult :=
  { keyA := recordA.key
    keyB := recordB.key
    winnerKey :=
      if recordB.sentimentScore < recordA.sentimentScore then
        Winner.key recordA.key
      else if recordA.sentimentScore < recordB.sentimentScore then
        Winner.key recordB.key
      else Winner.tie
    scoreDifference := (recordA.sentimentScore - recordB.sentimentScore).natAbs }

/-- Modelled from the spec: the observable build state of a cache entry
(section 3); the transient `Building` state is not observable in the
sequential model of `getOrBuild`. -/
inductive CacheEntry where
  | empty
  | ready (record : AnalysisRecord)
  | failed (e : BuildError)
  deriving DecidableEq, Repr

/-- A cache assigns a state to every key. -/
abbrev Cache := String → CacheEntry

/-- Point update of a cache. -/
def Cache.update (c : Cache) (k : String) (e : CacheEntry) : Cache :=
  fun k2 => if k2 = k then e else c k2

/-- Modelled from the spec: `AnalysisCache.getOrBuild` (section 4.2) — on
`Ready` return the stored record without building; otherwise run `buildFn`,
commit `Ready` on success, record a retryable `Failed` on failure. -/
def getOrBuild (c : Cache) (key : String)
    (buildFn : String → Except BuildError AnalysisRecord) :
    Except BuildError AnalysisRecord × Cache :=
  match c key with
  | CacheEntry.ready r => (Except.ok r, c)
  | _ =>
    match buildFn key with
    | Except.ok r => (Except.ok r, c.update key (CacheEntry.ready r))
    | Except.error e => (Except.error e, c.update key (CacheEntry.failed e))

/-- Modelled from the spec: the orchestrator-level error taxonomy
(`DuplicateInputError`, `PartialAnalysisError` carrying the failing key and
cause, `InvalidNameError` propagated from the Normalizer). -/
inductive CompareError where
  | invalidName
  | duplicateInput
  | partialAnalysis (failingKey : String) (cause : BuildError)
  deriving DecidableEq, Repr

/-- Modelled from the spec: `Orchestrator.compare` (section 4.6) — reject
equal normalized keys with `DuplicateInputError` before any build, build both
sides through the cache, fail with `PartialAnalysisError` naming the failing
key when either build fails, otherwise combine. -/
def compare (c : Cache) (buildFn : String → Except BuildError AnalysisRecord)
    (rawNameA rawNameB : String) :
    Except CompareError ComparisonResult × Cache :=
  match normalize rawNameA, normalize rawNameB with
  | Except.error _, _ => (Except.error CompareError.invalidName, c)
  | Except.ok _, Except.error _ => (Except.error CompareError.invalidName, c)
  | Except.ok keyA, Except.ok keyB =>
    if keyA = keyB then (Except.error CompareError.duplicateInput, c)
    else
      let resA := getOrBuild c keyA buildFn
      let resB := getOrBuild resA.2 keyB buildFn
      match resA.1, resB.1 with
      | Except.ok ra, Except.ok rb => (Except.ok (combine ra rb), resB.2)
      | Except.error e, _ =>
        (Except.error (CompareError.partialAnalysis keyA e), resB.2)
      | Except.ok _, Except.error e =>
        (Except.error (CompareError.partialAnalysis keyB e), resB.2)

/-- Modelled from the spec: the fields a successfully parsed LLM JSON object
may or may not carry (section 4.4); a missing field is `none`. -/
structure LLMFields where
  sentimentScore : Option Int
  pros : Option (List String)
  cons : Option (List String)
  keyThemes : Option (List String)
  explanation : Option String
  recommendation : Option String
  deriving DecidableEq, Repr

/-- Modelled from the spec: the field-by-field validation step of
`AnalysisBuilder.build` (section 4.4) — missing `pros`/`cons`/`keyThemes`
default to empty sequences; a missing or out-of-range `sentimentScore` is a
hard failure with `InvalidScoreError`. -/
def validateFields (key displayName : String) (postsAnalyzed builtAt : Nat)
    (f : LLMFields) : Except BuildError AnalysisRecord :=
  match f.sentimentScore with
  | none => Except.error BuildError.invalidScore
  | some s =>
    if 0 ≤ s ∧ s ≤ 100 then
      Except.ok
        { key := key, displayName := displayName, sentimentScore := s,
          pros := f.pros.getD [], cons := f.cons.getD [],
          keyThemes := f.keyThemes.getD [],
          explanation := f.explanation.getD "",
          recommendation := f.recommendation.getD "",
          postsAnalyzed := postsAnalyzed, builtAt := builtAt }
    else Except.error BuildError.invalidScore

/-- Modelled from the spec: outcome of one attempt of a network-bound call —
success, a transient failure (timeout, 5xx, connection reset), or a
non-transient (permanent) failure. -/
inductive CallOutcome where
  | success
  | transient
  | permanent
  deriving DecidableEq, Repr

/-- Result of a call run under the retry policy: how many attempts were made
and whether the call ended in success. -/
structure RetryResult where
  attemptsMade : Nat
  succeeded : Bool
  deriving DecidableEq, Repr

/-- Modelled from the spec: the bounded retry loop of section 4.3 — at most
`budget` further attempts, retrying only transient failures; `outcomes i` is
what attempt number `i` would return. -/
def retryLoop (outcomes : Nat → CallOutcome) : Nat → Nat → RetryResult
  | attempt, 0 => { attemptsMade := attempt, succeeded := false }
  | attempt, budget + 1 =>
    match outcomes attempt with
    | CallOutcome.success => { attemptsMade := attempt + 1, succeeded := true }
    | CallOutcome.permanent => { attemptsMade := attempt + 1, succeeded := false }
    | CallOutcome.transient => retryLoop outcomes (attempt + 1) budget

/-- Modelled from the spec: a network-bound call wrapped in the retry policy
with its fixed budget of 3 attempts. -/
def withRetry (outcomes : Nat → CallOutcome) : RetryResult :=
  retryLoop outcomes 0 3

/-- Modelled from the spec: the environment of one `ensureIndexed` run —
pre-existing indexed document count, the minimum-document threshold, the
attempt outcomes of the discovery call, and the attempt outcomes of the
per-URL extraction call for each discovered URL. -/
structure IngestEnv where
  preexisting : Nat
  minThreshold : Nat
  discovery : Nat → CallOutcome
  extraction : List (Nat → CallOutcome)

/-- Documents existing for the key after an ingestion attempt: pre-existing
ones plus every discovered URL whose (retried) extraction succeeded; a failed
discovery contributes nothing. -/
def docsAfterAttempt (env : IngestEnv) : Nat :=
  env.preexisting +
    (if (withRetry env.discovery).succeeded then
      (env.extraction.filter fun u => (withRetry u).succeeded).length
    else 0)

/-- Modelled from the spec: `KnowledgeIngestor.ensureIndexed` (section 4.3) —
return immediately when the store already meets the threshold, otherwise
discover and extract with retries, skipping failed documents, and fail with
`InsufficientDataError` exactly when zero documents exist after the attempt. -/
def ensureIndexed (env : IngestEnv) : Except BuildError Nat :=
  if env.minThreshold ≤ env.preexisting then Except.ok env.preexisting
  else if docsAfterAttempt env = 0 then Except.error BuildError.insufficientData
  else Except.ok (docsAfterAttempt env)

/-! ### Concurrent `getOrBuild` as a step relation

K callers issue `getOrBuild(key, buildFn)` on one key whose build
deterministically returns a fixed record; their interleaving is an arbitrary
trace of the step relation below. -/

/-- Status of one caller of a concurrent `getOrBuild` round: not yet
scheduled, waiting on the in-flight build, or finished with a record. -/
inductive CallerStatus where
  | pending
  | waiting
  | done (record : AnalysisRecord)
  deriving DecidableEq, Repr

/-- Phase of the cache entry for the key during a concurrent round. -/
inductive BuildPhase where
  | empty
  | building
  | ready (record : AnalysisRecord)
  deriving DecidableEq, Repr

/-- Global state of `K` concurrent `getOrBuild` calls on one key: the entry
phase, each caller's status, and how many times `buildFn` has run. -/
structure ConcState (K : Nat) where
  phase : BuildPhase
  callers : Fin K → CallerStatus
  buildCount : Nat

/-- All callers pending on an empty entry, `buildFn` never run. -/
def initState (K : Nat) : ConcState K :=
  { phase := BuildPhase.empty, callers := fun _ => CallerStatus.pending,
    buildCount := 0 }

/-- Modelled from the spec: the interleaving semantics of
`AnalysisCache.getOrBuild` (sections 4.2 and 5) on one key whose build
returns `rec`.  A pending caller either claims the `Empty` entry — the only
step that executes `buildFn`, incrementing `buildCount` — or joins an
in-flight build as a waiter, or reads a `Ready` record directly; the
in-flight build commits `rec` and wakes every waiter with it. -/
inductive Step (rec : AnalysisRecord) {K : Nat} :
    ConcState K → ConcState K → Prop where
  | claim (s : ConcState K) (i : Fin K)
      (hc : s.callers i = CallerStatus.pending)
      (hp : s.phase = BuildPhase.empty) :
      Step rec s
        { phase := BuildPhase.building,
          callers := fun j => if j = i then CallerStatus.waiting else s.callers j,
          buildCount := s.buildCount + 1 }
  | join (s : ConcState K) (i : Fin K)
      (hc : s.callers i = CallerStatus.pending)
      (hp : s.phase = BuildPhase.building) :
      Step rec s
        { s with callers :=
            fun j => if j = i then CallerStatus.waiting else s.callers j }
  | readReady (s : ConcState K) (i : Fin K) (r : AnalysisRecord)
      (hc : s.callers i = CallerStatus.pending)
      (hp : s.phase = BuildPhase.ready r) :
      Step rec s
        { s with callers :=
            fun j => if j = i then CallerStatus.done r else s.callers j }
  | commit (s : ConcState K)
      (hp : s.phase = BuildPhase.building) :
      Step rec s
        { s with
            phase := BuildPhase.ready rec,
            callers := fun j =>
              if s.callers j = CallerStatus.waiting then CallerStatus.done rec
              else s.callers j }

/-- A state is reachable from another by a trace of interleaved steps. -/
abbrev Reaches (rec : AnalysisRecord) {K : Nat} (s1 s2 : ConcState K) : Prop :=
  Relation.ReflTransGen (Step rec) s1 s2

/-- The inductive invariant of a concurrent round: the build ran exactly once
when the entry left `Empty` and never before, only `rec` is ever committed,
and every finished caller holds `rec`. -/
def ConcInv (rec : AnalysisRecord) {K : Nat} (s : ConcState K) : Prop :=
  (s.phase = BuildPhase.empty →
    s.buildCount = 0 ∧ ∀ i, s.callers i = CallerStatus.pending) ∧
  (s.phase = BuildPhase.building → s.buildCount = 1) ∧
  (∀ r, s.phase = BuildPhase.ready r → s.buildCount = 1 ∧ r = rec) ∧
  (∀ i r, s.callers i = CallerStatus.done r → r = rec)

end LaptopAI

namespace LaptopAI

/-! ## Claims about the UI source -/

/-- C8: for every record shown on the results screen, the UI displays at most
the first 4 pros, at most the first 4 cons, and at most the first 3 key
themes, in record order; entries beyond those prefixes are omitted. -/
theorem C8_card_truncation (pros cons themes : List String) :
    (prosItems (some pros)).length = min pros.length 4 ∧
    (consItems (some cons)).length = min cons.length 4 ∧
    (renderedThemes (some themes)).length = min themes.length 3 ∧
    (∀ i : Nat, i < 4 → (prosItems (some pros)).get? i = pros.get? i) ∧
    (∀ i : Nat, i < 4 → (consItems (some cons)).get? i = cons.get? i) ∧
    (∀ i : Nat, i < 3 → 0 < themes.length →
      (renderedThemes (some themes)).get? i = themes.get? i) := by
  refine ⟨?_, ?_, ?_, ?_, ?_, ?_⟩
  · simp [prosItems, jsSlice]; omega
  · simp [consItems, jsSlice]; omega
  · rcases themes with _ | ⟨t, ts⟩
    · simp [renderedThemes]
    · simp [renderedThemes, jsSlice]
      omega
  · intro i hi
    simp only [prosItems, jsSlice, List.drop_zero, List.get?_eq_getElem?]
    exact List.getElem?_take_of_lt hi
  · intro i hi
    simp only [consItems, jsSlice, List.drop_zero, List.get?_eq_getElem?]
    exact List.getElem?_take_of_lt hi
  · intro i hi hlen
    simp only [renderedThemes, jsSlice, hlen, if_true, List.drop_zero,
      List.get?_eq_getElem?]
    exact List.getElem?_take_of_lt hi

/-- C8 witness at a concrete record. -/
theorem C8_card_truncation_witness :
    (prosItems (some ["a", "b", "c", "d", "e"])).get? 2 = some "c" :=
  ((C8_card_truncation ["a", "b", "c", "d", "e"] [] []).2.2.2.1 2 (by decide))

/-- C9: the input screen never invokes the battle callback with an empty or
whitespace-only name: if either input trims to empty, submission is blocked
with an error message; when submission proceeds, both names are passed in
trimmed (hence non-empty) form. -/
theorem C9_no_empty_submission (l1 l2 : String) :
    ((jsTrim l1 = "" ∨ jsTrim l2 = "") →
      handleBattle l1 l2 = SubmitResult.blocked "Please enter both laptop names") ∧
    (∀ n1 n2, handleBattle l1 l2 = SubmitResult.submitted n1 n2 →
      n1 = jsTrim l1 ∧ n2 = jsTrim l2 ∧ n1 ≠ "" ∧ n2 ≠ "") := by
  constructor
  · intro h
    rcases h with h | h <;> simp [handleBattle, h]
  · intro n1 n2 h
    unfold handleBattle at h
    split at h
    · simp at h
    · split at h
      · simp at h
      · rename_i hempty _
        push_neg at hempty
        obtain ⟨rfl, rfl⟩ := SubmitResult.submitted.inj h
        exact ⟨rfl, rfl, hempty.1, hempty.2⟩

/-- C9 witness: a whitespace-only first name is blocked, and a well-formed
pair is forwarded trimmed. -/
theorem C9_no_empty_submission_witness :
    handleBattle "   " "Lenovo Legion Y540" =
      SubmitResult.blocked "Please enter both laptop names" ∧
    (jsTrim "  MacBook Pro M4 " = "MacBook Pro M4" ∧
      "MacBook Pro M4" ≠ "") :=
  ⟨(C9_no_empty_submission "   " "Lenovo Legion Y540").1 (Or.inl (by decide)),
   by decide,
   ((C9_no_empty_submission "  MacBook Pro M4 " "Lenovo Legion Y540").2
      "MacBook Pro M4" "Lenovo Legion Y540" (by decide)).2.2.1⟩

/-- C10: results rendering is total over missing list fields: a `null`,
`undefined` or empty pros/cons field renders the fallback text, and the
key-themes section is rendered exactly when `key_themes` is present and
non-empty. -/
theorem C10_render_totality (pros cons themes : Option (List String)) :
    ((pros = none ∨ pros = some []) → renderedPros pros = ["No pros identified"]) ∧
    ((cons = none ∨ cons = some []) → renderedCons cons = ["No cons identified"]) ∧
    (themesSectionShown themes = true ↔ ∃ l, themes = some l ∧ l ≠ []) := by
  refine ⟨?_, ?_, ?_⟩
  · rintro (rfl | rfl) <;> simp [renderedPros, prosItems, prosFallback, jsSlice]
  · rintro (rfl | rfl) <;> simp [renderedCons, consItems, consFallback, jsSlice]
  · rcases themes with _ | l
    · simp [themesSectionShown]
    · simp [themesSectionShown, List.length_pos]

/-- C10 witness: a record with `pros = null` renders the fallback row. -/
theorem C10_render_totality_witness :
    renderedPros none = ["No pros identified"] :=
  (C10_render_totality none none none).1 (Or.inl rfl)

/-! ## Claims about the spec-modelled backend -/

/-- C1: for every pair of records, the winner is A on strictly greater score,
B on strictly smaller, tie exactly on equal integer scores, and the score
difference is the absolute gap (a non-negative integer by type). -/
theorem C1_combine_rule (a b : AnalysisRecord) :
    (b.sentimentScore < a.sentimentScore →
      (combine a b).winnerKey = Winner.key a.key) ∧
    (a.sentimentScore < b.sentimentScore →
      (combine a b).winnerKey = Winner.key b.key) ∧
    ((combine a b).winnerKey = Winner.tie ↔
      a.sentimentScore = b.sentimentScore) ∧
    (combine a b).scoreDifference =
      (a.sentimentScore - b.sentimentScore).natAbs := by
  refine ⟨?_, ?_, ?_, rfl⟩
  · intro h
    simp [combine, h]
  · intro h
    simp [combine, h, not_lt_of_gt h]
  · unfold combine
    constructor
    · intro h
      by_contra hne
      rcases lt_or_gt_of_ne hne with hlt | hlt <;> simp [hlt, not_lt_of_gt hlt] at h
    · intro h
      simp [h]

/-- C1 witness: `combine` on scores 78 vs 65 names the first key with
difference 13, and on 50 vs 50 ties with difference 0. -/
theorem C1_combine_rule_witness :
    (combine (sampleRecord "laptop-a" 78) (sampleRecord "laptop-b" 65)).winnerKey =
      Winner.key "laptop-a" ∧
    (combine (sampleRecord "laptop-a" 78) (sampleRecord "laptop-b" 65)).scoreDifference = 13 ∧
    (combine (sampleRecord "laptop-a" 50) (sampleRecord "laptop-b" 50)).winnerKey =
      Winner.tie ∧
    (combine (sampleRecord "laptop-a" 50) (sampleRecord "laptop-b" 50)).scoreDifference = 0 :=
  ⟨(C1_combine_rule (sampleRecord "laptop-a" 78) (sampleRecord "laptop-b" 65)).1
      (by decide),
   by decide,
   (C1_combine_rule (sampleRecord "laptop-a" 50) (sampleRecord "laptop-b" 50)).2.2.1.mpr
      rfl,
   by decide⟩

/-- C2: whenever the two raw names normalize to the same key, `compare`
rejects with `DuplicateInputError` and leaves the cache untouched — no build
is started, so such inputs are never compared against each other. -/
theorem C2_duplicate_rejected (c : Cache)
    (buildFn : String → Except BuildError AnalysisRecord)
    (rawNameA rawNameB k : String)
    (hA : normalize rawNameA = Except.ok k)
    (hB : normalize rawNameB = Except.ok k) :
    compare c buildFn rawNameA rawNameB =
      (Except.error CompareError.duplicateInput, c) := by
  simp [compare, hA, hB]

/-- C2 witness: two spellings differing only in case and whitespace runs are
rejected as duplicates with the cache left empty. -/
theorem C2_duplicate_rejected_witness :
    compare (fun _ => CacheEntry.empty)
      (fun k2 => Except.ok (sampleRecord k2 50))
      "Lenovo Legion Y540" "  lenovo   LEGION y540 " =
      (Except.error CompareError.duplicateInput, fun _ => CacheEntry.empty) :=
  C2_duplicate_rejected (fun _ => CacheEntry.empty)
    (fun k2 => Except.ok (sampleRecord k2 50))
    "Lenovo Legion Y540" "  lenovo   LEGION y540 " "lenovo-legion-y540"
    rfl rfl

/-- C3: `normalize` maps the three sample spellings to one identical key, is
total (succeeds) on every input that is non-empty after trimming, and fails
with `InvalidNameError` exactly on inputs that trim to empty. -/
theorem C3_normalize_contract :
    (normalize "Lenovo Legion Y540" = Except.ok "lenovo-legion-y540" ∧
     normalize "lenovo legion y540" = Except.ok "lenovo-legion-y540" ∧
     normalize "  Lenovo   Legion Y540 " = Except.ok "lenovo-legion-y540") ∧
    (∀ s : String, jsTrim s ≠ "" → ∃ k, normalize s = Except.ok k) ∧
    (∀ s : String, jsTrim s = "" → normalize s = Except.error NameError.invalidName) := by
  refine ⟨⟨rfl, rfl, rfl⟩, ?_, ?_⟩
  · intro s h
    refine ⟨String.intercalate "-"
      ((keyTokens (jsToLower s).data []).map fun t => ⟨t⟩), ?_⟩
    simp [normalize, h]
  · intro s h
    simp [normalize, h]

/-- C3 witness: a whitespace-only input fails with `InvalidNameError` and a
real name normalizes successfully. -/
theorem C3_normalize_contract_witness :
    normalize "   " = Except.error NameError.invalidName ∧
    normalize "MacBook Pro M4" = Except.ok "macbook-pro-m4" :=
  ⟨C3_normalize_contract.2.2 "   " (by decide), rfl⟩

/-- C4: if the build of either side fails, `compare` fails with
`PartialAnalysisError` naming a failing key — the caller never receives a
comparison built from only one side — and in each one-sided case the side
that succeeded keeps its record `Ready` in the cache for subsequent calls. -/
theorem C4_partial_failure (c : Cache)
    (buildFn : String → Except BuildError AnalysisRecord)
    (rawA rawB kA kB : String)
    (hA : normalize rawA = Except.ok kA)
    (hB : normalize rawB = Except.ok kB)
    (hne : kA ≠ kB)
    (hcA : c kA = CacheEntry.empty)
    (hcB : c kB = CacheEntry.empty) :
    (∀ (ra : AnalysisRecord) (e : BuildError),
      buildFn kA = Except.ok ra → buildFn kB = Except.error e →
      (compare c buildFn rawA rawB).1 =
        Except.error (CompareError.partialAnalysis kB e) ∧
      (compare c buildFn rawA rawB).2 kA = CacheEntry.ready ra) ∧
    (∀ (e : BuildError) (rb : AnalysisRecord),
      buildFn kA = Except.error e → buildFn kB = Except.ok rb →
      (compare c buildFn rawA rawB).1 =
        Except.error (CompareError.partialAnalysis kA e) ∧
      (compare c buildFn rawA rawB).2 kB = CacheEntry.ready rb) ∧
    (∀ eA eB : BuildError,
      buildFn kA = Except.error eA → buildFn kB = Except.error eB →
      (compare c buildFn rawA rawB).1 =
        Except.error (CompareError.partialAnalysis kA eA)) := by
  have hne2 : kB ≠ kA := Ne.symm hne
  refine ⟨?_, ?_, ?_⟩
  · intro ra e hbA hbB
    constructor <;>
      simp [compare, hA, hB, hne, hne2, getOrBuild, Cache.update, hcA, hcB,
        hbA, hbB]
  · intro e rb hbA hbB
    constructor <;>
      simp [compare, hA, hB, hne, hne2, getOrBuild, Cache.update, hcA, hcB,
        hbA, hbB]
  · intro eA eB hbA hbB
    simp [compare, hA, hB, hne, hne2, getOrBuild, Cache.update, hcA, hcB,
      hbA, hbB]

/-- Build function for the C4 witness in which only side B's build throws. -/
def demoBuildBFails : String → Except BuildError AnalysisRecord :=
  fun k2 =>
    if k2 = "laptop-a" then Except.ok (sampleRecord "laptop-a" 70)
    else Except.error BuildError.insufficientData

/-- Build function for the C4 witness in which only side A's build throws. -/
def demoBuildAFails : String → Except BuildError AnalysisRecord :=
  fun k2 =>
    if k2 = "laptop-b" then Except.ok (sampleRecord "laptop-b" 64)
    else Except.error BuildError.insufficientData

/-- C4 witness: with side B's build throwing, `compare` fails naming B's key
and A's record stays `Ready`; with side A's build throwing, it fails naming
A's key and B's record stays `Ready`. -/
theorem C4_partial_failure_witness :
    ((compare (fun _ => CacheEntry.empty) demoBuildBFails
        "Laptop A" "Laptop B").1 =
      Except.error (CompareError.partialAnalysis "laptop-b"
        BuildError.insufficientData) ∧
     (compare (fun _ => CacheEntry.empty) demoBuildBFails
        "Laptop A" "Laptop B").2 "laptop-a" =
      CacheEntry.ready (sampleRecord "laptop-a" 70)) ∧
    ((compare (fun _ => CacheEntry.empty) demoBuildAFails
        "Laptop A" "Laptop B").1 =
      Except.error (CompareError.partialAnalysis "laptop-a"
        BuildError.insufficientData) ∧
     (compare (fun _ => CacheEntry.empty) demoBuildAFails
        "Laptop A" "Laptop B").2 "laptop-b" =
      CacheEntry.ready (sampleRecord "laptop-b" 64)) :=
  ⟨(C4_partial_failure (fun _ => CacheEntry.empty) demoBuildBFails
      "Laptop A" "Laptop B" "laptop-a" "laptop-b"
      rfl rfl (by decide) rfl rfl).1
      (sampleRecord "laptop-a" 70) BuildError.insufficientData rfl rfl,
   (C4_partial_failure (fun _ => CacheEntry.empty) demoBuildAFails
      "Laptop A" "Laptop B" "laptop-a" "laptop-b"
      rfl rfl (by decide) rfl rfl).2.1
      BuildError.insufficientData (sampleRecord "laptop-b" 64) rfl rfl⟩

/-- The retry loop never makes more attempts than its budget allows. -/
theorem retryLoop_attempts_le (outcomes : Nat → CallOutcome) :
    ∀ budget attempt : Nat,
      (retryLoop outcomes attempt budget).attemptsMade ≤ attempt + budget := by
  intro budget
  induction budget with
  | zero => intro a; simp [retryLoop]
  | succ b ih =>
    intro a
    cases h : outcomes a with
    | success => simp [retryLoop, h]
    | transient =>
      simp only [retryLoop, h]
      exact le_trans (ih (a + 1)) (by omega)
    | permanent => simp [retryLoop, h]

/-- C6: after a successful JSON parse, a missing `sentimentScore` or one
outside 0–100 fails the build with `InvalidScoreError`; missing `pros`,
`cons` or `keyThemes` default to empty sequences and the record still
succeeds; every committed record has its score within 0–100 (and list fields
that are sequences, never null, by construction). -/
theorem C6_field_validation (key dn : String) (pa ba : Nat) (f : LLMFields) :
    (f.sentimentScore = none →
      validateFields key dn pa ba f = Except.error BuildError.invalidScore) ∧
    (∀ s : Int, f.sentimentScore = some s → (s < 0 ∨ 100 < s) →
      validateFields key dn pa ba f = Except.error BuildError.invalidScore) ∧
    (∀ s : Int, f.sentimentScore = some s → 0 ≤ s → s ≤ 100 →
      ∃ r, validateFields key dn pa ba f = Except.ok r ∧
        r.pros = f.pros.getD [] ∧ r.cons = f.cons.getD [] ∧
        r.keyThemes = f.keyThemes.getD []) ∧
    (∀ r, validateFields key dn pa ba f = Except.ok r →
      0 ≤ r.sentimentScore ∧ r.sentimentScore ≤ 100) := by
  refine ⟨?_, ?_, ?_, ?_⟩
  · intro h
    simp [validateFields, h]
  · intro s hs hrange
    have hnot : ¬ (0 ≤ s ∧ s ≤ 100) := by omega
    simp [validateFields, hs, hnot]
  · intro s hs h0 h100
    refine
      ⟨{ key := key, displayName := dn, sentimentScore := s,
         pros := f.pros.getD [], cons := f.cons.getD [],
         keyThemes := f.keyThemes.getD [],
         explanation := f.explanation.getD "",
         recommendation := f.recommendation.getD "",
         postsAnalyzed := pa, builtAt := ba }, ?_, rfl, rfl, rfl⟩
    simp [validateFields, hs, h0, h100]
  · intro r hr
    unfold validateFields at hr
    split at hr
    · simp at hr
    · rename_i s hs
      split at hr
      · rename_i hcond
        injection hr with hrec
        subst hrec
        exact hcond
      · simp at hr

/-- Concrete LLM responses for the C6 witness: a missing score, an
out-of-range score, and a missing pros field. -/
def llmNoScore : LLMFields :=
  { sentimentScore := none, pros := some ["fast"], cons := some [],
    keyThemes := none, explanation := none, recommendation := none }

/-- LLM response with `pros` missing but a valid score. -/
def llmNoPros : LLMFields :=
  { sentimentScore := some 80, pros := none, cons := some ["loud fans"],
    keyThemes := none, explanation := none, recommendation := none }

/-- LLM response with a score above 100. -/
def llmBigScore : LLMFields :=
  { llmNoPros with sentimentScore := some 150 }

/-- C6 witness: missing score fails, out-of-range score fails, missing pros
succeeds with `pros = []`. -/
theorem C6_field_validation_witness :
    validateFields "k" "K" 3 0 llmNoScore = Except.error BuildError.invalidScore ∧
    validateFields "k" "K" 3 0 llmBigScore = Except.error BuildError.invalidScore ∧
    validateFields "k" "K" 3 0 llmNoPros =
      Except.ok
        { key := "k", displayName := "K", sentimentScore := 80,
          pros := [], cons := ["loud fans"], keyThemes := [],
          explanation := "", recommendation := "",
          postsAnalyzed := 3, builtAt := 0 } :=
  ⟨(C6_field_validation "k" "K" 3 0 llmNoScore).1 rfl,
   (C6_field_validation "k" "K" 3 0 llmBigScore).2.1 150 rfl (Or.inr (by decide)),
   rfl⟩

/-- C7: every network-bound call makes at most 3 attempts; a non-transient
failure is not retried; two transient failures followed by success still
succeed; with such a discovery and one extractable URL, `ensureIndexed`
succeeds; and, for a positive threshold, `ensureIndexed` fails with
`InsufficientDataError` exactly when zero documents exist after the attempt. -/
theorem C7_retry_and_sufficiency :
    (∀ outcomes : Nat → CallOutcome, (withRetry outcomes).attemptsMade ≤ 3) ∧
    (∀ outcomes : Nat → CallOutcome, outcomes 0 = CallOutcome.permanent →
      withRetry outcomes = { attemptsMade := 1, succeeded := false }) ∧
    (∀ outcomes : Nat → CallOutcome, outcomes 0 = CallOutcome.transient →
      outcomes 1 = CallOutcome.transient → outcomes 2 = CallOutcome.success →
      withRetry outcomes = { attemptsMade := 3, succeeded := true }) ∧
    (∀ env : IngestEnv, 0 < env.minThreshold →
      env.discovery 0 = CallOutcome.transient →
      env.discovery 1 = CallOutcome.transient →
      env.discovery 2 = CallOutcome.success →
      (∃ u ∈ env.extraction, (withRetry u).succeeded = true) →
      ∃ n, ensureIndexed env = Except.ok n ∧ 0 < n) ∧
    (∀ env : IngestEnv, 0 < env.minThreshold →
      (ensureIndexed env = Except.error BuildError.insufficientData ↔
        docsAfterAttempt env = 0)) := by
  refine ⟨?_, ?_, ?_, ?_, ?_⟩
  · intro outcomes
    simpa using retryLoop_attempts_le outcomes 3 0
  · intro outcomes h
    simp [withRetry, retryLoop, h]
  · intro outcomes h0 h1 h2
    simp [withRetry, retryLoop, h0, h1, h2]
  · intro env hth hd0 hd1 hd2 hext
    obtain ⟨u, hu, hus⟩ := hext
    by_cases hmet : env.minThreshold ≤ env.preexisting
    · exact ⟨env.preexisting, by simp [ensureIndexed, hmet],
        lt_of_lt_of_le hth hmet⟩
    · have hsucc : (withRetry env.discovery).succeeded = true := by
        simp [withRetry, retryLoop, hd0, hd1, hd2]
      have hmem : u ∈ env.extraction.filter fun v => (withRetry v).succeeded :=
        List.mem_filter.mpr ⟨hu, hus⟩
      have hlen := List.length_pos_of_mem hmem
      have hpos : 0 < docsAfterAttempt env := by
        unfold docsAfterAttempt
        rw [if_pos hsucc]
        omega
      exact ⟨docsAfterAttempt env, by simp [ensureIndexed, hmet, hpos.ne'], hpos⟩
  · intro env hth
    by_cases hmet : env.minThreshold ≤ env.preexisting
    · have hpos : 0 < docsAfterAttempt env := by
        unfold docsAfterAttempt
        omega
      simp [ensureIndexed, hmet, hpos.ne']
    · by_cases hz : docsAfterAttempt env = 0 <;> simp [ensureIndexed, hmet, hz]

/-- Discovery outcomes for the C7 witness: transient, transient, success. -/
def demoDiscovery : Nat → CallOutcome :=
  fun i => if i < 2 then CallOutcome.transient else CallOutcome.success

/-- The ingestion environment of the C7 witness: nothing pre-indexed, one
discoverable URL whose extraction succeeds immediately. -/
def demoIngest : IngestEnv :=
  { preexisting := 0, minThreshold := 2, discovery := demoDiscovery,
    extraction := [fun _ => CallOutcome.success] }

/-- C7 witness: a discovery that fails transiently twice then succeeds, with
one URL whose extraction succeeds immediately, produces a successful
ingestion within the attempt bound. -/
theorem C7_retry_and_sufficiency_witness :
    (withRetry demoDiscovery).attemptsMade ≤ 3 ∧
    withRetry demoDiscovery = { attemptsMade := 3, succeeded := true } ∧
    ensureIndexed demoIngest = Except.ok 1 :=
  ⟨C7_retry_and_sufficiency.1 demoDiscovery,
   C7_retry_and_sufficiency.2.2.1 demoDiscovery rfl rfl rfl,
   rfl⟩

/-- Every step of a concurrent round preserves the invariant. -/
theorem concInv_step {K : Nat} (rec : AnalysisRecord) {s1 s2 : ConcState K}
    (hinv : ConcInv rec s1) (hstep : Step rec s1 s2) : ConcInv rec s2 := by
  obtain ⟨he, hb, hr, hd⟩ := hinv
  cases hstep with
  | claim i hc hp =>
    obtain ⟨hcount, _⟩ := he hp
    refine ⟨?_, ?_, ?_, ?_⟩
    · intro h; simp at h
    · intro _; simp [hcount]
    · intro r h; simp at h
    · intro j r h
      dsimp at h
      by_cases hji : j = i
      · rw [if_pos hji] at h; cases h
      · rw [if_neg hji] at h; exact hd j r h
  | join i hc hp =>
    refine ⟨?_, ?_, ?_, ?_⟩
    · intro h; rw [hp] at h; cases h
    · intro _; exact hb hp
    · intro r h; rw [hp] at h; cases h
    · intro j r h
      dsimp at h
      by_cases hji : j = i
      · rw [if_pos hji] at h; cases h
      · rw [if_neg hji] at h; exact hd j r h
  | readReady i r0 hc hp =>
    refine ⟨?_, ?_, ?_, ?_⟩
    · intro h; rw [hp] at h; cases h
    · intro h; rw [hp] at h; cases h
    · intro r h; exact hr r h
    · intro j r h
      dsimp at h
      by_cases hji : j = i
      · rw [if_pos hji] at h
        rw [← CallerStatus.done.inj h]
        exact (hr r0 hp).2
      · rw [if_neg hji] at h; exact hd j r h
  | commit hp =>
    refine ⟨?_, ?_, ?_, ?_⟩
    · intro h; simp at h
    · intro h; simp at h
    · intro r h
      dsimp at h
      refine ⟨hb hp, ?_⟩
      exact (BuildPhase.ready.inj h).symm
    · intro j r h
      dsimp at h
      by_cases hw : s1.callers j = CallerStatus.waiting
      · rw [if_pos hw] at h
        exact (CallerStatus.done.inj h).symm
      · rw [if_neg hw] at h; exact hd j r h

/-- The invariant holds in every state reachable from the initial one. -/
theorem concInv_reaches {K : Nat} (rec : AnalysisRecord) {s : ConcState K}
    (h : Reaches rec (initState K) s) : ConcInv rec s := by
  induction h with
  | refl =>
    refine ⟨fun _ => ⟨rfl, fun _ => rfl⟩, ?_, ?_, ?_⟩
    · intro hph; cases hph
    · intro r hph; cases hph
    · intro i r hdone; cases hdone
  | tail _ hstep ih => exact concInv_step rec ih hstep

/-- C5: along any interleaving of K concurrent `getOrBuild(key, buildFn)`
calls from the initial state, `buildFn` never runs more than once; as soon
as any caller has finished, it has run exactly once and every finished
caller holds the identical committed record; and once the entry is `Ready`,
further steps return the stored record without running `buildFn` again. -/
theorem C5_at_most_one_builder {K : Nat} (rec : AnalysisRecord)
    (s : ConcState K) (h : Reaches rec (initState K) s) :
    s.buildCount ≤ 1 ∧
    ((∃ i r, s.callers i = CallerStatus.done r) →
      s.buildCount = 1 ∧
        ∀ i r, s.callers i = CallerStatus.done r → r = rec) ∧
    (∀ s2, Step rec s s2 → s.phase = BuildPhase.ready rec →
      s2.buildCount = s.buildCount ∧ s2.phase = BuildPhase.ready rec) := by
  obtain ⟨he, hb, hr, hd⟩ := concInv_reaches rec h
  refine ⟨?_, ?_, ?_⟩
  · cases hph : s.phase with
    | empty => simp [(he hph).1]
    | building => simp [hb hph]
    | ready r => simp [(hr r hph).1]
  · rintro ⟨i, r, hdone⟩
    refine ⟨?_, hd⟩
    cases hph : s.phase with
    | empty =>
      rw [(he hph).2 i] at hdone
      cases hdone
    | building => exact hb hph
    | ready r2 => exact (hr r2 hph).1
  · intro s2 hstep hready
    cases hstep with
    | claim i hc hp => rw [hready] at hp; cases hp
    | join i hc hp => rw [hready] at hp; cases hp
    | readReady i r0 hc hp => exact ⟨rfl, hready⟩
    | commit hp => rw [hready] at hp; cases hp

/-- The record returned by the demo build. -/
def demoRec : AnalysisRecord := sampleRecord "lenovo-legion-y540" 78

/-- Demo trace state: caller 0 has claimed the empty entry. -/
def demoS1 : ConcState 2 :=
  { phase := BuildPhase.building,
    callers := fun j =>
      if j = (0 : Fin 2) then CallerStatus.waiting else (initState 2).callers j,
    buildCount := (initState 2).buildCount + 1 }

/-- Demo trace state: caller 1 has joined the in-flight build. -/
def demoS2 : ConcState 2 :=
  { demoS1 with callers :=
      fun j => if j = (1 : Fin 2) then CallerStatus.waiting else demoS1.callers j }

/-- Demo trace state: the build has committed and woken both waiters. -/
def demoFinal : ConcState 2 :=
  { demoS2 with
      phase := BuildPhase.ready demoRec,
      callers := fun j =>
        if demoS2.callers j = CallerStatus.waiting then CallerStatus.done demoRec
        else demoS2.callers j }

/-- The demo interleaving: claim by caller 0, join by caller 1, commit. -/
theorem demo_reaches : Reaches demoRec (initState 2) demoFinal :=
  Relation.ReflTransGen.head (Step.claim (initState 2) 0 rfl rfl)
    (Relation.ReflTransGen.head (Step.join demoS1 1 rfl rfl)
      (Relation.ReflTransGen.single (Step.commit demoS2 rfl)))

/-- C5 witness: in the concrete two-caller interleaving claim, join, commit,
`buildFn` ran exactly once and both callers hold the identical record. -/
theorem C5_at_most_one_builder_witness :
    demoFinal.buildCount = 1 ∧
    demoFinal.callers 0 = CallerStatus.done demoRec ∧
    demoFinal.callers 1 = CallerStatus.done demoRec :=
  ⟨((C5_at_most_one_builder demoRec demoFinal demo_reaches).2.1
      ⟨0, demoRec, by decide⟩).1,
   by decide, by decide⟩

end LaptopAI
